import Mathlib

/-!
# Verification of the CSM routing assignment engine

Shallow embedding of the assignment decision engine of
`csm_routing_automation.py`: the recency penalty, the capacity-pressure
term, the single-account scorer, the batch objective, the exclusion
governor, the LLM review step and the propose/review/retry control loop
of `run`.  External effects (database queries, the LLM call, the MILP
solver) are modelled as explicit inputs; all arithmetic is exact
(`ℤ`/`ℚ`), mirroring the Python integer and float expressions.
-/

namespace CSMRouting

/-- Per-agent recency snapshot, as built by `cache_all_csm_recency_data`:
counts of recommendations/assignments in the trailing 1h/4h/24h/7d windows
plus the average neediness of recently assigned accounts (0 when absent). -/
structure RecencyData where
  last1Hour : ℤ
  last4Hours : ℤ
  last24Hours : ℤ
  recentAssignments7d : ℤ
  avgNeedinessAssigned : ℚ
deriving Repr, DecidableEq

/-- The all-zero recency record used by `cache_all_csm_recency_data` to
initialise every agent before merging query rows. -/
def zeroRecency : RecencyData :=
  ⟨0, 0, 0, 0, 0⟩

/-- Recency cache lookup (`recency_data[csm]`), defaulting to the all-zero
initial record for agents not present in the cache. -/
def lookupRecency (cache : List (String × RecencyData)) (csm : String) : RecencyData :=
  match cache.find? (fun p => p.1 == csm) with
  | some p => p.2
  | none => zeroRecency

/-- `calculate_assignment_recency_penalty`, lines 1080-1127: squared
penalties on the trailing-window counts, a linear penalty on the 7-day
count above 5, and a flat penalty for high recent average neediness.
The Python truthiness test `if avg_neediness and avg_neediness > 7` is
rendered as the conjunction with `≠ 0`. -/
def calculate_assignment_recency_penalty (r : RecencyData) : ℚ :=
  let p1 : ℚ := if r.last1Hour > 0 then 1000000 * ((r.last1Hour : ℚ) ^ 2) else 0
  let d4 : ℤ := r.last4Hours - r.last1Hour
  let p4 : ℚ := if d4 > 0 then 100000 * ((d4 : ℚ) ^ 2) else 0
  let d24 : ℤ := r.last24Hours - r.last4Hours
  let p24 : ℚ := if d24 > 0 then 10000 * ((d24 : ℚ) ^ 2) else 0
  let p7 : ℚ := if r.recentAssignments7d > 5 then 50 * ((r.recentAssignments7d : ℚ) - 5) else 0
  let pn : ℚ := if r.avgNeedinessAssigned ≠ 0 ∧ r.avgNeedinessAssigned > 7 then 50 else 0
  p1 + p4 + p24 + p7 + pn

/-- The capacity-pressure term of `assign_single_account_optimized`,
lines 1216-1227: tiered penalties keyed to the current count against the
configured ceiling (`warning_threshold = max_accounts - 5`). -/
def capacityPressure (maxAccounts currentCount : ℤ) : ℚ :=
  let warningThreshold : ℤ := maxAccounts - 5
  if currentCount ≥ maxAccounts then
    ((currentCount - (maxAccounts - 1) : ℤ) : ℚ) * 10000000
  else if currentCount ≥ warningThreshold then
    ((currentCount - (warningThreshold - 1) : ℤ) : ℚ) * 1000000
  else if currentCount ≥ warningThreshold - 10 then
    ((currentCount - (warningThreshold - 11) : ℤ) : ℚ) * 100000
  else 0

/-- The lookback window (hours) chosen by `get_recently_assigned_csms`
for a given batch size, lines 924-939. -/
def exclusionWindow (numAccountsProcessing : ℤ) : ℤ :=
  if numAccountsProcessing ≤ 5 then 2
  else if numAccountsProcessing ≤ 20 then 1
  else 4

/-- The per-window allowance (`max_allowed`) chosen by
`get_recently_assigned_csms` for a given batch size, lines 924-939. -/
def exclusionMaxAllowed (numAccountsProcessing : ℤ) : ℤ :=
  if numAccountsProcessing ≤ 5 then 0
  else if numAccountsProcessing ≤ 20 then 2
  else 5

/-- `get_recently_assigned_csms`, lines 906-991.  `activityRows w` models
the aggregated velocity query for a `w`-hour window: one `(csm, total
assignments)` row per agent with recent activity.  Agents already
assigned in the current batch are always excluded; agents whose total in
the tier's window strictly exceeds the tier's allowance are additionally
excluded.  The Python set is modelled as a deduplicated list. -/
def get_recently_assigned_csms (currentBatchAssignments : List (String × String))
    (activityRows : ℤ → List (String × ℤ)) (numAccountsProcessing : ℤ) : List String :=
  let batchCsms := (currentBatchAssignments.map Prod.snd).dedup
  let rows := activityRows (exclusionWindow numAccountsProcessing)
  let fromActivity :=
    (rows.filter (fun row => row.2 > exclusionMaxAllowed numAccountsProcessing)).map Prod.fst
  (batchCsms ++ fromActivity).dedup

/-- The health-mix sub-record of a CSM book
(`csm_books[csm]['health_distribution']`, built in
`get_current_csm_books`, lines 626-631). -/
structure HealthDist where
  red : ℤ
  yellow : ℤ
  green : ℤ
  total : ℤ
deriving Repr, DecidableEq

/-- A per-agent book as built by `get_current_csm_books` (lines 617-635),
restricted to the fields read by the scoring and control code. -/
structure Book where
  count : ℤ
  totalNeediness : ℚ
  totalRevenue : ℚ
  totalTad : ℚ
  healthDistribution : HealthDist
  tenureMonths : ℤ
  tenureCategory : String
deriving Repr, DecidableEq

/-- An enriched account record, restricted to the fields read by the
scoring and control code. -/
structure Account where
  accountId : String
  needinessScore : ℚ
  revenue : ℚ
  tadScore : ℚ
  healthSegment : String
deriving Repr, DecidableEq

/-- First-match association-list lookup (Python `dict[key]` /
`dict.get(key)`). -/
def alookup {β : Type} (l : List (String × β)) (k : String) : Option β :=
  (l.find? (fun p => p.1 == k)).map Prod.snd

/-- The configuration surface read by the core: `csm_category_limits.json`
as a map from segment-level keys to `max_accounts_per_csm`. -/
structure Config where
  limits : List (String × ℤ)
deriving Repr, DecidableEq

/-- `self.limits.get(key, {}).get('max_accounts_per_csm', dflt)`. -/
def limitsGet (cfg : Config) (key : String) (dflt : ℤ) : ℤ :=
  (alookup cfg.limits key).getD dflt

/-- Population variance (`np.var`) of a list of rationals; 0 on the empty
list (never hit by the flows modelled here). -/
def popVariance (xs : List ℚ) : ℚ :=
  if xs.length = 0 then 0
  else
    let n : ℚ := xs.length
    let mean := xs.sum / n
    (xs.map (fun x => (x - mean) ^ 2)).sum / n

/-- The four variance components of `calculate_book_imbalance`,
lines 1129-1153 (the std fields are not read by the scorer). -/
structure Imbalance where
  countVariance : ℚ
  needinessVariance : ℚ
  revenueVariance : ℚ
  tadVariance : ℚ
deriving Repr, DecidableEq

/-- `calculate_book_imbalance`, lines 1129-1153. -/
def calculate_book_imbalance (csmBooks : List (String × Book)) : Imbalance :=
  { countVariance := popVariance (csmBooks.map (fun p => ((p.2.count : ℚ))))
    needinessVariance := popVariance (csmBooks.map (fun p => p.2.totalNeediness))
    revenueVariance := popVariance (csmBooks.map (fun p => p.2.totalRevenue))
    tadVariance := popVariance (csmBooks.map (fun p => p.2.totalTad)) }

/-- The book delta applied when simulating or committing one account on
one agent (count+1 and the three summed scores), as in lines 1200-1203
and 2295-2298. -/
def addAccountToBook (b : Book) (a : Account) : Book :=
  ⟨b.count + 1, b.totalNeediness + a.needinessScore, b.totalRevenue + a.revenue,
    b.totalTad + a.tadScore, b.healthDistribution, b.tenureMonths, b.tenureCategory⟩

/-- The inverse delta used when reverting an assignment,
lines 2349-2352 and 2371-2374. -/
def removeAccountFromBook (b : Book) (a : Account) : Book :=
  ⟨b.count - 1, b.totalNeediness - a.needinessScore, b.totalRevenue - a.revenue,
    b.totalTad - a.tadScore, b.healthDistribution, b.tenureMonths, b.tenureCategory⟩

/-- Apply one account's delta to the named agent's book in a book map. -/
def applyAddDelta (csmBooks : List (String × Book)) (csm : String) (a : Account) :
    List (String × Book) :=
  csmBooks.map (fun p => if p.1 == csm then (p.1, addAccountToBook p.2 a) else p)

/-- Revert one account's delta from the named agent's book in a book map. -/
def applyRemoveDelta (csmBooks : List (String × Book)) (csm : String) (a : Account) :
    List (String × Book) :=
  csmBooks.map (fun p => if p.1 == csm then (p.1, removeAccountFromBook p.2 a) else p)

/-- The per-candidate cost computed inside the loop of
`assign_single_account_optimized`, lines 1188-1313: post-placement
imbalance, capacity pressure, health matching, neediness/tenure terms,
the new-agent guard, the tenure-scaled doubled recency penalty and the
neediness-concentration term. -/
def scoreCsm (cfg : Config) (account : Account) (csmBooks : List (String × Book))
    (recencyCache : List (String × RecencyData)) (csm : String) : ℚ :=
  match alookup csmBooks csm with
  | none => 0
  | some book =>
    let simulatedBooks := applyAddDelta csmBooks csm account
    let imbalance := calculate_book_imbalance simulatedBooks
    let base : ℚ :=
      imbalance.countVariance * 0.20 + imbalance.needinessVariance * 0.25 +
        imbalance.revenueVariance * 0.15 + imbalance.tadVariance * 0.20
    let maxAccounts := limitsGet cfg "residential_corporate" 105
    let s1 := base + capacityPressure maxAccounts book.count
    let hd := book.healthDistribution
    let hdTotal : ℚ := max hd.total 1
    let healthTerm : ℚ :=
      if account.healthSegment == "Red" then
        (if (hd.red : ℚ) / hdTotal > 0.3 then 50 else 0) +
          (if book.tenureCategory == "New" then 80
           else if book.tenureCategory == "Junior" then 40
           else if book.tenureCategory == "Senior" || book.tenureCategory == "Expert" then -10
           else 0)
      else if account.healthSegment == "Green" then
        (if (hd.green : ℚ) / hdTotal > 0.5 then 20 else 0) +
          (if book.tenureCategory == "New" && ((hd.green : ℚ) / hdTotal < 0.6) then -5 else 0)
      else
        (if (hd.yellow : ℚ) / hdTotal > 0.4 then 15 else 0)
    let s2 := s1 + healthTerm
    let needinessTenureTerm : ℚ :=
      if account.needinessScore ≥ 8 then
        (if book.tenureMonths < 3 then 60
         else if book.tenureMonths < 6 then 30
         else if book.tenureMonths ≥ 24 then -15
         else 0)
      else 0
    let s3 := s2 + needinessTenureTerm
    let recent := lookupRecency recencyCache csm
    let newCsmGuard : ℚ :=
      if book.tenureMonths < 3 then
        (if book.count > 40 then 50 else 0) + (if recent.last24Hours > 2 then 100 else 0)
      else 0
    let s4 := s3 + newCsmGuard
    let rp0 := calculate_assignment_recency_penalty recent * 2.0
    let recencyPenalty :=
      if book.tenureMonths ≥ 24 then rp0 * 0.8
      else if book.tenureMonths < 6 then rp0 * 1.5
      else rp0
    let s5 := s4 + recencyPenalty
    let concentrationTerm : ℚ :=
      if account.needinessScore ≥ 8 ∧ recent.avgNeedinessAssigned > 7 then
        (if book.tenureCategory == "New" || book.tenureCategory == "Junior" then 50 else 30)
      else 0
    s5 + concentrationTerm

/-- Stable insertion of a scored candidate into an ascending list
(earlier candidates stay ahead on ties, like Python's stable `sort`). -/
def insertByScore (p : String × ℚ) : List (String × ℚ) → List (String × ℚ)
  | [] => [p]
  | q :: rest => if p.2 ≤ q.2 then p :: q :: rest else q :: insertByScore p rest

/-- Stable ascending sort by score (`all_csm_scores.sort(key=score)`). -/
def sortByScore (l : List (String × ℚ)) : List (String × ℚ) :=
  l.foldr insertByScore []

/-- Running-minimum selection with strict improvement
(`if score < best_score`), starting from `best_score = inf`: the first
candidate attaining the minimum wins. -/
def bestOf (scores : List (String × ℚ)) : Option (String × ℚ) :=
  scores.foldl
    (fun acc p =>
      match acc with
      | none => some p
      | some q => if p.2 < q.2 then some p else some q)
    none

/-- Result of `assign_single_account_optimized`: the chosen agent with
its score (None when no candidate), and the top-6 scored candidates
(best first) whose first five entries are disclosed to the reviewer. -/
structure SingleAssignResult where
  best : Option (String × ℚ)
  topAlternatives : List (String × ℚ)
deriving Repr, DecidableEq

/-- `assign_single_account_optimized`, lines 1155-1355: filter the
eligible list to agents with books, drop excluded agents, score each
candidate, pick the strict running minimum, and sort all candidates by
score keeping the top 6.  Database writes are external effects and are
not modelled. -/
def assign_single_account_optimized (cfg : Config) (eligibleCsmList : List String)
    (account : Account) (csmBooks : List (String × Book))
    (recencyCache : List (String × RecencyData)) (excludedCsms : List String) :
    SingleAssignResult :=
  let eligible0 := eligibleCsmList.filter (fun csm => (alookup csmBooks csm).isSome)
  let eligible := eligible0.filter (fun csm => ¬ csm ∈ excludedCsms)
  let allCsmScores := eligible.map (fun csm => (csm, scoreCsm cfg account csmBooks recencyCache csm))
  { best := bestOf allCsmScores
    topAlternatives := (sortByScore allCsmScores).take 6 }

/-- Projected post-batch count of an agent:
`csm_books[csm]['count'] + Σᵢ x[i,csm]` (lines 1411-1414), evaluated at a
concrete 0/1 solution given as the list of (account, assigned agent)
pairs. -/
def projectedCount (csmBooks : List (String × Book)) (assign : List (Account × String))
    (csm : String) : ℚ :=
  (((alookup csmBooks csm).map Book.count).getD 0 : ℤ) +
    ((assign.filter (fun p => p.2 == csm)).length : ℚ)

/-- Projected post-batch summed neediness of an agent (lines 1416-1419). -/
def projectedNeediness (csmBooks : List (String × Book)) (assign : List (Account × String))
    (csm : String) : ℚ :=
  ((alookup csmBooks csm).map Book.totalNeediness).getD 0 +
    ((assign.filter (fun p => p.2 == csm)).map (fun p => p.1.needinessScore)).sum

/-- Projected post-batch summed revenue of an agent (lines 1421-1424). -/
def projectedRevenue (csmBooks : List (String × Book)) (assign : List (Account × String))
    (csm : String) : ℚ :=
  ((alookup csmBooks csm).map Book.totalRevenue).getD 0 +
    ((assign.filter (fun p => p.2 == csm)).map (fun p => p.1.revenue)).sum

/-- Projected post-batch summed priority (TAD) score of an agent
(lines 1426-1429). -/
def projectedTad (csmBooks : List (String × Book)) (assign : List (Account × String))
    (csm : String) : ℚ :=
  ((alookup csmBooks csm).map Book.totalTad).getD 0 +
    ((assign.filter (fun p => p.2 == csm)).map (fun p => p.1.tadScore)).sum

/-- Sum of absolute deviations of the projected counts from their mean
across the eligible agents.  At any optimum of the minimisation the
`count_dev_pos + count_dev_neg` slack pair of lines 1439-1455 equals
this absolute deviation. -/
def countAbsDev (csmBooks : List (String × Book)) (eligibleCsms : List String)
    (assign : List (Account × String)) : ℚ :=
  let n : ℚ := eligibleCsms.length
  let mean := (eligibleCsms.map (projectedCount csmBooks assign)).sum / n
  (eligibleCsms.map (fun csm => |projectedCount csmBooks assign csm - mean|)).sum

/-- Sum of absolute deviations of the projected neediness sums from their
mean across the eligible agents (slack pair of lines 1447-1456). -/
def needinessAbsDev (csmBooks : List (String × Book)) (eligibleCsms : List String)
    (assign : List (Account × String)) : ℚ :=
  let n : ℚ := eligibleCsms.length
  let mean := (eligibleCsms.map (projectedNeediness csmBooks assign)).sum / n
  (eligibleCsms.map (fun csm => |projectedNeediness csmBooks assign csm - mean|)).sum

/-- The analogous revenue deviation term described by the spec
(§4.5 objective component (c)); the source never builds it.  Used only
to compare the code's objective against the spec's. -/
def specRevenueAbsDev (csmBooks : List (String × Book)) (eligibleCsms : List String)
    (assign : List (Account × String)) : ℚ :=
  let n : ℚ := eligibleCsms.length
  let mean := (eligibleCsms.map (projectedRevenue csmBooks assign)).sum / n
  (eligibleCsms.map (fun csm => |projectedRevenue csmBooks assign csm - mean|)).sum

/-- The analogous priority-score deviation term described by the spec
(§4.5 objective component (c)); the source never builds it.  Used only
to compare the code's objective against the spec's. -/
def specTadAbsDev (csmBooks : List (String × Book)) (eligibleCsms : List String)
    (assign : List (Account × String)) : ℚ :=
  let n : ℚ := eligibleCsms.length
  let mean := (eligibleCsms.map (projectedTad csmBooks assign)).sum / n
  (eligibleCsms.map (fun csm => |projectedTad csmBooks assign csm - mean|)).sum

/-- Total recency penalty of a batch solution:
`Σ x[i,csm] · calculate_assignment_recency_penalty(csm)` (lines 1462-1468). -/
def recencyPenaltySum (recencyCache : List (String × RecencyData))
    (assign : List (Account × String)) : ℚ :=
  (assign.map (fun p => calculate_assignment_recency_penalty (lookupRecency recencyCache p.2))).sum

/-- The objective of `optimize_batch_with_pulp` evaluated at a concrete
0/1 solution, lines 1437-1477: the linearised count and neediness
absolute-deviation terms, the hard-coded
`revenue_variance = 0` / `tad_variance = 0` of lines 1458-1460, and the
recency penalty sum, combined with the weights of lines 1471-1477. -/
def batchObjective (csmBooks : List (String × Book)) (eligibleCsms : List String)
    (recencyCache : List (String × RecencyData)) (assign : List (Account × String)) : ℚ :=
  let countVariance := countAbsDev csmBooks eligibleCsms assign
  let needinessVariance := needinessAbsDev csmBooks eligibleCsms assign
  let revenueVariance : ℚ := 0
  let tadVariance : ℚ := 0
  let recencyPenalties := recencyPenaltySum recencyCache assign
  0.20 * countVariance + 0.20 * needinessVariance + 0.15 * revenueVariance +
    0.15 * tadVariance + 0.30 * recencyPenalties

/-- The per-agent capacity constraint of the batch program,
lines 1400-1403: current count plus new assignments stays within the
ceiling. -/
def batchCapacityOk (cfg : Config) (csmBooks : List (String × Book))
    (eligibleCsms : List String) (assign : List (Account × String)) : Prop :=
  ∀ csm ∈ eligibleCsms,
    (((alookup csmBooks csm).map Book.count).getD 0) +
        ((assign.filter (fun p => p.2 == csm)).length : ℤ) ≤
      limitsGet cfg "residential_corporate" 85

/-- The parsed outcome of one external reviewer call. -/
inductive LlmResponse where
  /-- The API call raised an exception (lines 1959-1961). -/
  | failure
  /-- No JSON object could be extracted from the response
  (lines 1914-1924). -/
  | unparseable
  /-- A parsed JSON verdict with its `approve`, `confidence_score`,
  `critical_issues` and `specific_reassignments` fields. -/
  | parsed (approve : Bool) (confidenceScore : ℤ) (criticalIssues : List String)
      (specificReassignments : List (String × String))
deriving Repr, DecidableEq

/-- One iteration of the reassignment loop of lines 1943-1946: when the
suggested account is present in the proposal
(`if account_id in revised_assignments`), overwrite its agent with the
suggested one, as-is. -/
def applyOneReassignment (acc : List (String × String)) (sub : String × String) :
    List (String × String) :=
  if (acc.find? (fun p => p.1 == sub.1)).isSome then
    acc.map (fun p => if p.1 == sub.1 then (p.1, sub.2) else p)
  else acc

/-- The reassignment application of lines 1941-1946: each suggested
`(account, agent)` pair overwrites the account's agent whenever the
account is present in the proposal; the named agent is written as-is. -/
def applyReassignments (assignments : List (String × String))
    (subs : List (String × String)) : List (String × String) :=
  subs.foldl applyOneReassignment assignments

/-- The pair returned to the controller by the review step: the rerun
recommendation and the (possibly revised) assignments. -/
structure ReviewResult where
  shouldRerun : Bool
  revisedAssignments : List (String × String)
deriving Repr, DecidableEq

/-- The common tail of `review_assignments_with_llm` (lines 1940-1957):
apply suggested reassignments, then recommend a rerun when the verdict
is not approved, the confidence is below 60, or critical issues were
raised. -/
def reviewCore (assignments : List (String × String)) (approve : Bool)
    (confidenceScore : ℤ) (criticalIssues : List String)
    (specificReassignments : List (String × String)) : ReviewResult :=
  { shouldRerun := !approve || decide (confidenceScore < 60) || decide (criticalIssues.length > 0)
    revisedAssignments := applyReassignments assignments specificReassignments }

/-- `review_assignments_with_llm`, lines 1744-1961, as a function of the
proposal and the reviewer outcome.  An exception returns
`(False, assignments)`; an unparseable response substitutes the fallback
verdict `approve=True, confidence_score=0, no critical issues, no
reassignments` of lines 1916-1924 and then runs the common tail. -/
def review_assignments_with_llm (assignments : List (String × String)) :
    LlmResponse → ReviewResult
  | .failure => ⟨false, assignments⟩
  | .unparseable => reviewCore assignments true 0 [] []
  | .parsed approve confidenceScore criticalIssues specificReassignments =>
      reviewCore assignments approve confidenceScore criticalIssues specificReassignments

/-- `len([csm for csm in self.eligible_csm_list if csm in csm_books])`,
line 2275. -/
def eligibleCount (eligibleCsmList : List String) (csmBooks : List (String × Book)) : ℕ :=
  (eligibleCsmList.filter (fun csm => (alookup csmBooks csm).isSome)).length

/-- The exclusion safety valve of `run`, lines 2274-2280: when the
exclusion list is at least as large as the non-empty eligible set, the
applied exclusion list is reset to empty. -/
def applyExclusionSafetyValve (recentlyAssigned : List String)
    (eligibleCsmList : List String) (csmBooks : List (String × Book)) : List String :=
  if recentlyAssigned.length ≥ eligibleCount eligibleCsmList csmBooks ∧
      eligibleCount eligibleCsmList csmBooks > 0 then
    []
  else recentlyAssigned

/-- `max_retries = 2`, line 2257. -/
def maxRetries : ℕ := 2

/-- The ambient inputs of one `run` call: configuration, the batch of
accounts to place, the eligible agent list, the per-run recency cache,
the recent-activity rows backing the exclusion query, the external MILP
solver (`[]` models failure / infeasibility, triggering the greedy
fallback), the reviewer's response on each attempt, and whether the LLM
client is configured. -/
structure RunEnv where
  cfg : Config
  accounts : List Account
  eligibleCsmList : List String
  recencyCache : List (String × RecencyData)
  activityRows : ℤ → List (String × ℤ)
  solveBatch : List (String × Book) → List String → List (String × String)
  responses : ℕ → LlmResponse
  claudeAvailable : Bool

/-- The exclusion list actually applied on one attempt, lines 2268-2280:
the governor is called with the (cleared) current-batch assignments and
the batch size, then passed through the safety valve. -/
def computeExclusions (env : RunEnv) (csmBooks : List (String × Book)) : List String :=
  applyExclusionSafetyValve
    (get_recently_assigned_csms [] env.activityRows (env.accounts.length : ℤ))
    env.eligibleCsmList csmBooks

/-- The greedy fallback of lines 2304-2328: place accounts one at a time
through the single-account scorer, extending the exclusion list with
agents already used in this batch and applying each placement's book
delta before the next account. -/
def greedyFallback (env : RunEnv) (csmBooks : List (String × Book)) (excl : List String) :
    List (String × String) × List (String × Book) :=
  env.accounts.foldl
    (fun acc account =>
      let currentExclusions := excl ++ (acc.1.map Prod.snd).dedup
      match (assign_single_account_optimized env.cfg env.eligibleCsmList account acc.2
          env.recencyCache currentExclusions).best with
      | some (csm, _) =>
          (acc.1 ++ [(account.accountId, csm)], applyAddDelta acc.2 csm account)
      | none => acc)
    ([], csmBooks)

/-- `BUILD_PROPOSAL`: lines 2282-2328.  A single account goes through
`assign_single_account_optimized` and its delta is applied to the books;
a larger batch goes through the solver, whose book deltas are *not*
applied, with the greedy fallback when the solver returns nothing.
Returns the proposal and the book state after the build. -/
def buildProposal (env : RunEnv) (csmBooks : List (String × Book)) :
    List (String × String) × List (String × Book) :=
  let excl := computeExclusions env csmBooks
  match env.accounts with
  | [account] =>
      match (assign_single_account_optimized env.cfg env.eligibleCsmList account csmBooks
          env.recencyCache excl).best with
      | some (csm, _) => ([(account.accountId, csm)], applyAddDelta csmBooks csm account)
      | none => ([], csmBooks)
  | _ =>
      let batchResult := env.solveBatch csmBooks excl
      if batchResult ≠ [] then (batchResult, csmBooks)
      else greedyFallback env csmBooks excl

/-- Revert the listed assignments' deltas from the books, looking each
account up in the batch (lines 2346-2352 and 2368-2374). -/
def revertAssignmentsFromBooks (csmBooks : List (String × Book))
    (assignments : List (String × String)) (accounts : List Account) :
    List (String × Book) :=
  assignments.foldl
    (fun bks pr =>
      match accounts.find? (fun a => a.accountId == pr.1) with
      | some a => applyRemoveDelta bks pr.2 a
      | none => bks)
    csmBooks

/-- Apply the listed assignments' deltas to the books (lines 2354-2360).
Python indexes `csm_books[new_csm]` directly, raising `KeyError` when
the agent is absent from the book map; this total map-based update is
therefore only invoked by `runAttempt` behind a presence guard that
models that `KeyError` as an aborted run. -/
def applyAssignmentsToBooks (csmBooks : List (String × Book))
    (assignments : List (String × String)) (accounts : List Account) :
    List (String × Book) :=
  assignments.foldl
    (fun bks pr =>
      match accounts.find? (fun a => a.accountId == pr.1) with
      | some a => applyAddDelta bks pr.2 a
      | none => bks)
    csmBooks

/-- Outcome of one iteration of the retry loop: the loop breaks
(finalising the given assignments and books, with `forced` recording
that the reviewer's rejection was overridden), or it retries with the
given book state, or the run aborts with an uncaught exception
(`KeyError` at line 2357 when a revised assignment names an agent
absent from the book map; `run`'s handler at lines 2408-2410 logs and
re-raises, so nothing is finalised or committed). -/
inductive AttemptOutcome where
  | finalize (assignments : List (String × String)) (csmBooks : List (String × Book))
      (forced : Bool)
  | retry (csmBooks : List (String × Book))
  | error
deriving Repr, DecidableEq

/-- The book state carried into the next attempt, when this attempt
retried. -/
def AttemptOutcome.retryBooks : AttemptOutcome → Option (List (String × Book))
  | .finalize _ _ _ => none
  | .retry b => some b
  | .error => none

/-- Whether this attempt finalised (broke out of the retry loop). -/
def AttemptOutcome.isFinalize : AttemptOutcome → Bool
  | .finalize _ _ _ => true
  | .retry _ => false
  | .error => false

/-- The finalised assignments, when this attempt finalised. -/
def AttemptOutcome.finalAssignments : AttemptOutcome → Option (List (String × String))
  | .finalize a _ _ => some a
  | .retry _ => none
  | .error => none

/-- One iteration of the retry loop of `run`, lines 2262-2384: build a
proposal, review it, then either finalise the reviewer's revised
assignments (applying their deltas after reverting the proposal's),
retry (reverting this attempt's book deltas only on the single-account
path, lines 2367-2374), or break with the built proposal.  Applying a
revised assignment indexes `csm_books[new_csm]` (line 2357), so a
revised agent absent from the book map aborts the run with `KeyError`
instead of being applied or ignored — modelled by the presence guard
producing `.error`.  (The revert loop's `csm_books[old_csm]` indexing
at line 2349 is total here because built proposals name agents drawn
from the book map.) -/
def runAttempt (env : RunEnv) (csmBooks : List (String × Book)) (retryCount : ℕ) :
    AttemptOutcome :=
  let built := buildProposal env csmBooks
  let assignments := built.1
  let books1 := built.2
  if assignments ≠ [] ∧ env.claudeAvailable then
    let rr := review_assignments_with_llm assignments (env.responses retryCount)
    if rr.shouldRerun ∧ retryCount < maxRetries then
      if rr.revisedAssignments ≠ [] ∧ rr.revisedAssignments ≠ assignments then
        let books2 := revertAssignmentsFromBooks books1 assignments env.accounts
        if rr.revisedAssignments.all (fun pr => (alookup books2 pr.2).isSome) then
          .finalize rr.revisedAssignments
            (applyAssignmentsToBooks books2 rr.revisedAssignments env.accounts) false
        else .error
      else
        let books2 :=
          if env.accounts.length = 1 ∧ assignments ≠ [] then
            revertAssignmentsFromBooks books1 assignments env.accounts
          else books1
        .retry books2
    else .finalize assignments books1 rr.shouldRerun
  else .finalize assignments books1 false

/-- The observable outcome of one `run`: the committed assignments, the
final book state, how many proposal-building attempts were made,
whether the final proposal was force-finalised over a rejection, and
whether the run aborted with an uncaught exception (in which case
nothing was finalised or committed). -/
structure RunResult where
  assignments : List (String × String)
  csmBooks : List (String × Book)
  attempts : ℕ
  forced : Bool
  aborted : Bool
deriving Repr, DecidableEq

/-- The retry loop, structured by the remaining fuel
`maxRetries + 1 - retryCount`.  The zero-fuel case is unreachable from
`run` because `runAttempt` only retries while `retryCount < maxRetries`. -/
def runLoop (env : RunEnv) : ℕ → List (String × Book) → ℕ → RunResult
  | 0, csmBooks, _ => ⟨[], csmBooks, 0, false, false⟩
  | fuel + 1, csmBooks, retryCount =>
      match runAttempt env csmBooks retryCount with
      | .finalize a b f => ⟨a, b, 1, f, false⟩
      | .error => ⟨[], csmBooks, 1, false, true⟩
      | .retry books2 =>
          let r := runLoop env fuel books2 (retryCount + 1)
          ⟨r.assignments, r.csmBooks, r.attempts + 1, r.forced, r.aborted⟩

/-- The propose/review/retry controller of `run` over one batch,
lines 2256-2390, starting from the initial book state. -/
def run (env : RunEnv) (csmBooks0 : List (String × Book)) : RunResult :=
  runLoop env (maxRetries + 1) csmBooks0 0

/-! ### Concrete instances used to evaluate the model -/

/-- A configuration carrying the default residential-corporate ceiling. -/
def cfgRC : Config := ⟨[("residential_corporate", 105)]⟩

/-- A mid-tenure agent book with comfortable headroom. -/
def exBookA : Book := ⟨20, 100, 1000, 30, ⟨2, 3, 5, 10⟩, 12, "Mid"⟩

/-- A senior agent book with comfortable headroom. -/
def exBookB : Book := ⟨30, 150, 2000, 40, ⟨1, 4, 5, 10⟩, 24, "Senior"⟩

/-- A book exactly at the residential-corporate ceiling of 105. -/
def exBookFull : Book := ⟨105, 500, 10000, 200, ⟨10, 20, 30, 60⟩, 12, "Mid"⟩

/-- An empty book used in the batch-objective evaluation. -/
def zeroBook : Book := ⟨0, 0, 0, 0, ⟨0, 0, 0, 0⟩, 12, "Mid"⟩

/-- A low-neediness Green account. -/
def exAcct1 : Account := ⟨"A1", 5, 100, 3, "Green"⟩

/-- A second account for two-account batches. -/
def exAcct2 : Account := ⟨"A2", 6, 200, 4, "Yellow"⟩

/-- Two-agent book map. -/
def exBooksPair : List (String × Book) := [("csm1", exBookA), ("csm2", exBookB)]

/-- Six identical books (ties broken by iteration order), so the
candidate ranking is `csm1, …, csm6` and only `csm1`-`csm5` are
disclosed to the reviewer. -/
def exBooksSix : List (String × Book) :=
  [("csm1", exBookA), ("csm2", exBookA), ("csm3", exBookA), ("csm4", exBookA),
    ("csm5", exBookA), ("csm6", exBookA)]

/-- A single agent already at the capacity ceiling. -/
def exBooksAtCap : List (String × Book) := [("csm1", exBookFull)]

/-- Environment for the substitution counterexample: one account, six
eligible agents with identical books, and a reviewer who rejects and
substitutes `csm6` — an agent present in the book map but ranked sixth,
outside the disclosed top-5 alternates. -/
def envSubst : RunEnv :=
  ⟨cfgRC, [exAcct1], ["csm1", "csm2", "csm3", "csm4", "csm5", "csm6"], [], fun _ => [],
    fun _ _ => [], fun _ => .parsed false 80 [] [("A1", "csm6")], true⟩

/-- Two-account environment whose batch solver proposes `csm1`, with a
rejecting reviewer substituting `csm2` (present in the book map):
exercises the substitution-application branch without the scorer. -/
def envSubstBatch : RunEnv :=
  ⟨cfgRC, [exAcct1, exAcct2], ["csm1", "csm2"], [], fun _ => [],
    fun _ _ => [("A1", "csm1")], fun _ => .parsed false 80 [] [("A1", "csm2")], true⟩

/-- The account placed in the capacity evaluation. -/
def exAcctCap : Account := ⟨"A2", 5, 100, 3, "Green"⟩

/-- Environment for the capacity evaluation: one account, a single
eligible agent whose book is already at the 105 ceiling, an approving
reviewer. -/
def envAtCap : RunEnv :=
  ⟨cfgRC, [exAcctCap], ["csm1"], [], fun _ => [], fun _ _ => [],
    fun _ => .parsed true 90 [] [], true⟩

/-- Environment for the revert counterexample: two accounts, a failing
batch solver (forcing the greedy fallback), a reviewer who rejects with
no substitutions. -/
def envFallback : RunEnv :=
  ⟨cfgRC, [exAcct1, exAcct2], ["csm1", "csm2"], [], fun _ => [], fun _ _ => [],
    fun _ => .parsed false 80 [] [], true⟩

/-- Single-account environment with a rejecting, substitution-free
reviewer (exercises the single-path revert). -/
def envSingleReject : RunEnv :=
  ⟨cfgRC, [exAcct1], ["csm1", "csm2"], [], fun _ => [], fun _ _ => [],
    fun _ => .parsed false 80 [] [], true⟩

/-- Two-account environment whose batch solver succeeds, with a
rejecting, substitution-free reviewer (exercises the batch-path retry). -/
def envBatchOk : RunEnv :=
  ⟨cfgRC, [exAcct1, exAcct2], ["csm1", "csm2"], [], fun _ => [],
    fun _ _ => [("A1", "csm1"), ("A2", "csm2")],
    fun _ => .parsed false 80 [] [], true⟩

/-- Single-account environment whose reviewer response never contains an
extractable JSON object. -/
def envUnparseable : RunEnv :=
  ⟨cfgRC, [exAcct1], ["csm1", "csm2"], [], fun _ => [], fun _ _ => [],
    fun _ => .unparseable, true⟩

/-- Single-account environment whose reviewer call always raises. -/
def envReviewError : RunEnv :=
  ⟨cfgRC, [exAcct1], ["csm1", "csm2"], [], fun _ => [], fun _ _ => [],
    fun _ => .failure, true⟩

/-- Activity rows for the small-batch exclusion example: one assignment
for `c1` inside the 2-hour window. -/
def exActivityRowsA : ℤ → List (String × ℤ) :=
  fun w => if w = 2 then [("c1", 1)] else []

/-- Activity rows for the medium/large exclusion examples: three
assignments for `c2` in the 1-hour window, six for `c3` in the 4-hour
window. -/
def exActivityRowsB : ℤ → List (String × ℤ) :=
  fun w => if w = 1 then [("c2", 3)] else if w = 4 then [("c3", 6)] else []

/-- Accounts for the batch-objective evaluation: `exAcctRev` and
`exAcctRevAlt` differ only in revenue. -/
def exAcctRev : Account := ⟨"B1", 4, 10, 2, "Green"⟩

/-- Same account as `exAcctRev` with a different revenue. -/
def exAcctRevAlt : Account := ⟨"B1", 4, 50, 2, "Green"⟩

/-- The partner account of the batch-objective evaluation. -/
def exAcctB2 : Account := ⟨"B2", 6, 0, 1, "Yellow"⟩

/-- Empty two-agent book map for the batch-objective evaluation. -/
def exBooksZero : List (String × Book) := [("c1", zeroBook), ("c2", zeroBook)]

/-- Batch solution placing `exAcctRev` on `c1` and `exAcctB2` on `c2`. -/
def exAssignV1 : List (Account × String) := [(exAcctRev, "c1"), (exAcctB2, "c2")]

/-- The same solution with the revenue-modified first account. -/
def exAssignV2 : List (Account × String) := [(exAcctRevAlt, "c1"), (exAcctB2, "c2")]

/-- Same account as `exAcctRev` with a different priority (TAD) score. -/
def exAcctTadAlt : Account := ⟨"B1", 4, 10, 9, "Green"⟩

/-- The same solution with the TAD-modified first account. -/
def exAssignV3 : List (Account × String) := [(exAcctTadAlt, "c1"), (exAcctB2, "c2")]

/-! ### Theorems -/

/-- C7: the recency penalty is a pure function of the trailing-window
counts equal to `10⁶·n1² + 10⁵·(n4−n1)² + 10⁴·(n24−n4)²` plus a linear
penalty of 50 per 7-day assignment above the grace threshold of 5 and a
flat 50 when the recent average assigned neediness exceeds 7, for any
consistent record (window counts are monotone in the window). -/
theorem recency_penalty_formula (r : RecencyData)
    (h0 : 0 ≤ r.last1Hour) (h14 : r.last1Hour ≤ r.last4Hours)
    (h424 : r.last4Hours ≤ r.last24Hours) :
    calculate_assignment_recency_penalty r =
      1000000 * ((r.last1Hour : ℚ)) ^ 2 +
        100000 * (((r.last4Hours - r.last1Hour : ℤ) : ℚ)) ^ 2 +
        10000 * (((r.last24Hours - r.last4Hours : ℤ) : ℚ)) ^ 2 +
        (if r.recentAssignments7d > 5 then 50 * ((r.recentAssignments7d : ℚ) - 5) else 0) +
        (if r.avgNeedinessAssigned > 7 then 50 else 0) := by
  have e1 : (if r.last1Hour > 0 then 1000000 * ((r.last1Hour : ℚ) ^ 2) else 0) =
      1000000 * ((r.last1Hour : ℚ)) ^ 2 := by
    split_ifs with h
    · ring
    · have hz : r.last1Hour = 0 := le_antisymm (not_lt.mp h) h0
      rw [hz]; norm_num
  have e4 : (if r.last4Hours - r.last1Hour > 0 then
        100000 * (((r.last4Hours - r.last1Hour : ℤ) : ℚ) ^ 2) else 0) =
      100000 * (((r.last4Hours - r.last1Hour : ℤ) : ℚ)) ^ 2 := by
    split_ifs with h
    · ring
    · have hz : r.last4Hours - r.last1Hour = 0 := le_antisymm (not_lt.mp h) (by omega)
      rw [hz]; norm_num
  have e24 : (if r.last24Hours - r.last4Hours > 0 then
        10000 * (((r.last24Hours - r.last4Hours : ℤ) : ℚ) ^ 2) else 0) =
      10000 * (((r.last24Hours - r.last4Hours : ℤ) : ℚ)) ^ 2 := by
    split_ifs with h
    · ring
    · have hz : r.last24Hours - r.last4Hours = 0 := le_antisymm (not_lt.mp h) (by omega)
      rw [hz]; norm_num
  have e5 : (if r.avgNeedinessAssigned ≠ 0 ∧ r.avgNeedinessAssigned > 7 then (50 : ℚ) else 0) =
      (if r.avgNeedinessAssigned > 7 then 50 else 0) := by
    by_cases hb : r.avgNeedinessAssigned > 7
    · rw [if_pos ⟨ne_of_gt (lt_trans (by norm_num : (0 : ℚ) < 7) hb), hb⟩, if_pos hb]
    · rw [if_neg (fun hcon => hb hcon.2), if_neg hb]
  unfold calculate_assignment_recency_penalty
  dsimp only
  rw [e1, e4, e24, e5]

/-- Witness for C7 at the record `(2, 3, 5, 8, 9)`. -/
theorem recency_penalty_formula_witness :
    calculate_assignment_recency_penalty ⟨2, 3, 5, 8, 9⟩ = 4140200 := by
  have h := recency_penalty_formula ⟨2, 3, 5, 8, 9⟩ (by decide) (by decide) (by decide)
  rw [h]; norm_num

/-- C5, counterexample: at the default ceiling 105 the capacity-pressure
term is already 1,000,000 (not zero) at count 99, which is strictly
below the warning threshold `105 − 5 = 100`; moreover between the
warning threshold and the ceiling it contributes 10⁶ per unit (count
101 ↦ 2,000,000, not ~10⁵ per unit), and at/above the ceiling 10⁷ per
unit (count 107 ↦ 30,000,000, not ~10⁶ per unit). -/
theorem capacity_pressure_below_warning_counterexample :
    capacityPressure 105 99 = 1000000 ∧ (99 : ℤ) < 105 - 5 ∧ (1000000 : ℚ) ≠ 0 ∧
      capacityPressure 105 101 = 2000000 ∧ capacityPressure 105 107 = 30000000 := by
  refine ⟨by norm_num [capacityPressure], by norm_num, by norm_num,
    by norm_num [capacityPressure], by norm_num [capacityPressure]⟩

/-- C5, amended: the capacity-pressure term is zero only below
`max − 15`; it contributes 10⁵ per unit from `max − 15` up to the
warning threshold `max − 5`, 10⁶ per unit from the warning threshold up
to the ceiling, and 10⁷ per unit at or above the ceiling. -/
theorem capacity_pressure_tiers (m c : ℤ) :
    (c < m - 15 → capacityPressure m c = 0) ∧
      (m - 15 ≤ c → c < m - 5 → capacityPressure m c = ((c - (m - 16) : ℤ) : ℚ) * 100000) ∧
      (m - 5 ≤ c → c < m → capacityPressure m c = ((c - (m - 6) : ℤ) : ℚ) * 1000000) ∧
      (m ≤ c → capacityPressure m c = ((c - (m - 1) : ℤ) : ℚ) * 10000000) := by
  unfold capacityPressure
  dsimp only
  refine ⟨fun h => ?_, fun h1 h2 => ?_, fun h1 h2 => ?_, fun h => ?_⟩
  · rw [if_neg (by omega), if_neg (by omega), if_neg (by omega)]
  · rw [if_neg (by omega), if_neg (by omega), if_pos (by omega)]
    have e : c - (m - 5 - 11) = c - (m - 16) := by omega
    rw [e]
  · rw [if_neg (by omega), if_pos (by omega)]
    have e : c - (m - 5 - 1) = c - (m - 6) := by omega
    rw [e]
  · rw [if_pos (by omega)]

/-- Witness for C5 at `max = 105` and counts 80, 95, 101 and 107. -/
theorem capacity_pressure_tiers_witness :
    capacityPressure 105 80 = 0 ∧
      capacityPressure 105 95 = ((95 - (105 - 16) : ℤ) : ℚ) * 100000 ∧
      capacityPressure 105 101 = ((101 - (105 - 6) : ℤ) : ℚ) * 1000000 ∧
      capacityPressure 105 107 = ((107 - (105 - 1) : ℤ) : ℚ) * 10000000 :=
  ⟨(capacity_pressure_tiers 105 80).1 (by decide),
    (capacity_pressure_tiers 105 95).2.1 (by decide) (by decide),
    (capacity_pressure_tiers 105 101).2.2.1 (by decide) (by decide),
    (capacity_pressure_tiers 105 107).2.2.2 (by decide)⟩

/-- C9: when the governor's exclusion list is at least as large as the
non-empty eligible agent set, the exclusion list actually applied is
empty. -/
theorem exclusion_safety_valve (recentlyAssigned eligibleCsmList : List String)
    (csmBooks : List (String × Book))
    (h1 : eligibleCount eligibleCsmList csmBooks > 0)
    (h2 : recentlyAssigned.length ≥ eligibleCount eligibleCsmList csmBooks) :
    applyExclusionSafetyValve recentlyAssigned eligibleCsmList csmBooks = [] := by
  unfold applyExclusionSafetyValve
  rw [if_pos ⟨h2, h1⟩]

/-- Witness for C9: two excluded agents against a single eligible agent. -/
theorem exclusion_safety_valve_witness :
    applyExclusionSafetyValve ["a", "b"] ["csm1"] [("csm1", exBookA)] = [] :=
  exclusion_safety_valve ["a", "b"] ["csm1"] [("csm1", exBookA)] (by decide) (by decide)

/-- Membership in the governor's output, in terms of the chosen window
and allowance. -/
theorem mem_get_recently_assigned (batch : List (String × String))
    (rows : ℤ → List (String × ℤ)) (n : ℤ) (csm : String) :
    csm ∈ get_recently_assigned_csms batch rows n ↔
      csm ∈ batch.map Prod.snd ∨
        ∃ cnt : ℤ, (csm, cnt) ∈ rows (exclusionWindow n) ∧ cnt > exclusionMaxAllowed n := by
  unfold get_recently_assigned_csms
  simp only [List.mem_dedup, List.mem_append, List.mem_map, List.mem_filter]
  constructor
  · rintro (h | ⟨p, ⟨hp, hgt⟩, rfl⟩)
    · exact Or.inl h
    · exact Or.inr ⟨p.2, hp, by simpa using hgt⟩
  · rintro (h | ⟨cnt, hmem, hgt⟩)
    · exact Or.inl h
    · exact Or.inr ⟨(csm, cnt), ⟨hmem, by simpa using hgt⟩, rfl⟩

/-- C8: the governor always excludes agents already assigned in the
current batch, and additionally excludes exactly the agents whose
assignment count in the tier's lookback window exceeds the tier's
allowance: window 2h/allowance 0 for batches of at most 5, window
1h/allowance 2 for batches of 6-20, window 4h/allowance 5 above 20. -/
theorem exclusion_governor_tiers (batch : List (String × String))
    (rows : ℤ → List (String × ℤ)) (n : ℤ) (csm : String) :
    (csm ∈ batch.map Prod.snd → csm ∈ get_recently_assigned_csms batch rows n) ∧
      (n ≤ 5 →
        (csm ∈ get_recently_assigned_csms batch rows n ↔
          csm ∈ batch.map Prod.snd ∨ ∃ cnt : ℤ, (csm, cnt) ∈ rows 2 ∧ cnt > 0)) ∧
      (6 ≤ n → n ≤ 20 →
        (csm ∈ get_recently_assigned_csms batch rows n ↔
          csm ∈ batch.map Prod.snd ∨ ∃ cnt : ℤ, (csm, cnt) ∈ rows 1 ∧ cnt > 2)) ∧
      (20 < n →
        (csm ∈ get_recently_assigned_csms batch rows n ↔
          csm ∈ batch.map Prod.snd ∨ ∃ cnt : ℤ, (csm, cnt) ∈ rows 4 ∧ cnt > 5)) := by
  refine ⟨fun h => ?_, fun h5 => ?_, fun h6 h20 => ?_, fun h21 => ?_⟩
  · exact (mem_get_recently_assigned batch rows n csm).mpr (Or.inl h)
  · have hw : exclusionWindow n = 2 := by simp [exclusionWindow, h5]
    have ha : exclusionMaxAllowed n = 0 := by simp [exclusionMaxAllowed, h5]
    rw [mem_get_recently_assigned, hw, ha]
  · have hn5 : ¬ n ≤ 5 := by omega
    have hw : exclusionWindow n = 1 := by simp [exclusionWindow, hn5, h20]
    have ha : exclusionMaxAllowed n = 2 := by simp [exclusionMaxAllowed, hn5, h20]
    rw [mem_get_recently_assigned, hw, ha]
  · have hn5 : ¬ n ≤ 5 := by omega
    have hn20 : ¬ n ≤ 20 := by omega
    have hw : exclusionWindow n = 4 := by simp [exclusionWindow, hn5, hn20]
    have ha : exclusionMaxAllowed n = 5 := by simp [exclusionMaxAllowed, hn5, hn20]
    rw [mem_get_recently_assigned, hw, ha]

/-- Witness for C8: the batch agent `b1` and the active agent `c1` are
excluded at batch size 3 (2h window, zero tolerance); `c2` with 3
assignments in the 1h window is excluded at batch size 10; `c3` with 6
assignments in the 4h window is excluded at batch size 25. -/
theorem exclusion_governor_tiers_witness :
    "b1" ∈ get_recently_assigned_csms [("x", "b1")] exActivityRowsA 3 ∧
      "c1" ∈ get_recently_assigned_csms [("x", "b1")] exActivityRowsA 3 ∧
      "c2" ∈ get_recently_assigned_csms [] exActivityRowsB 10 ∧
      "c3" ∈ get_recently_assigned_csms [] exActivityRowsB 25 :=
  ⟨(exclusion_governor_tiers [("x", "b1")] exActivityRowsA 3 "b1").1 (by decide),
    ((exclusion_governor_tiers [("x", "b1")] exActivityRowsA 3 "c1").2.1 (by decide)).mpr
      (Or.inr ⟨1, by decide, by decide⟩),
    ((exclusion_governor_tiers [] exActivityRowsB 10 "c2").2.2.1 (by decide) (by decide)).mpr
      (Or.inr ⟨3, by decide, by decide⟩),
    ((exclusion_governor_tiers [] exActivityRowsB 25 "c3").2.2.2 (by decide)).mpr
      (Or.inr ⟨6, by decide, by decide⟩)⟩

/-- C4, counterexample: batch inputs that differ only in one account's
revenue (respectively only in its TAD score; all other fields equal)
have nonequal projected revenue (respectively TAD) deviations, yet the
optimizer's objective takes the same value on all of them — the
revenue-deviation and priority-deviation components claimed to be
present do not influence the objective. -/
theorem batch_objective_revenue_counterexample :
    batchObjective exBooksZero ["c1", "c2"] [] exAssignV1 =
        batchObjective exBooksZero ["c1", "c2"] [] exAssignV2 ∧
      specRevenueAbsDev exBooksZero ["c1", "c2"] exAssignV1 ≠
        specRevenueAbsDev exBooksZero ["c1", "c2"] exAssignV2 ∧
      batchObjective exBooksZero ["c1", "c2"] [] exAssignV1 =
        batchObjective exBooksZero ["c1", "c2"] [] exAssignV3 ∧
      specTadAbsDev exBooksZero ["c1", "c2"] exAssignV1 ≠
        specTadAbsDev exBooksZero ["c1", "c2"] exAssignV3 ∧
      exAcctRev.revenue ≠ exAcctRevAlt.revenue ∧
      exAcctRev.accountId = exAcctRevAlt.accountId ∧
      exAcctRev.needinessScore = exAcctRevAlt.needinessScore ∧
      exAcctRev.tadScore = exAcctRevAlt.tadScore ∧
      exAcctRev.healthSegment = exAcctRevAlt.healthSegment ∧
      exAcctRev.tadScore ≠ exAcctTadAlt.tadScore ∧
      exAcctRev.accountId = exAcctTadAlt.accountId ∧
      exAcctRev.needinessScore = exAcctTadAlt.needinessScore ∧
      exAcctRev.revenue = exAcctTadAlt.revenue ∧
      exAcctRev.healthSegment = exAcctTadAlt.healthSegment := by
  refine ⟨?_, ?_, ?_, ?_, ?_, ?_, ?_, ?_, ?_, ?_, ?_, ?_, ?_, ?_⟩ <;>
    norm_num +decide [batchObjective, countAbsDev, needinessAbsDev, recencyPenaltySum,
      specRevenueAbsDev, specTadAbsDev, projectedCount, projectedNeediness,
      projectedRevenue, projectedTad, exAssignV1, exAssignV2, exAssignV3, exAcctRev,
      exAcctRevAlt, exAcctTadAlt, exAcctB2, exBooksZero, zeroBook,
      alookup, lookupRecency, zeroRecency, calculate_assignment_recency_penalty,
      abs_of_nonneg, abs_of_nonpos]

/-- C4, amended: the batch objective is the weighted sum of the
absolute-deviation terms for projected count and projected neediness
(each weighted 0.20, linearized through the dev⁺/dev⁻ slack pairs) plus
0.30 times the recency-penalty sum; the revenue-deviation and
priority-deviation components are absent — their 0.15 weight slots
multiply a hard-coded zero. -/
theorem batch_objective_terms (csmBooks : List (String × Book)) (eligibleCsms : List String)
    (recencyCache : List (String × RecencyData)) (assign : List (Account × String)) :
    batchObjective csmBooks eligibleCsms recencyCache assign =
      0.20 * countAbsDev csmBooks eligibleCsms assign +
        0.20 * needinessAbsDev csmBooks eligibleCsms assign +
        0.30 * recencyPenaltySum recencyCache assign := by
  unfold batchObjective
  ring

/-- Lookup in a cons: test the head key first. -/
theorem alookup_cons {β : Type} (p : String × β) (l : List (String × β)) (k : String) :
    alookup (p :: l) k = if p.1 == k then some p.2 else alookup l k := by
  simp only [alookup, List.find?]
  cases h : (p.1 == k) <;> simp [h]

/-- A key absent from the key list looks up to `none`. -/
theorem alookup_eq_none {β : Type} (l : List (String × β)) (k : String)
    (h : k ∉ l.map Prod.fst) : alookup l k = none := by
  induction l with
  | nil => rfl
  | cons p t ih =>
    simp only [List.map_cons, List.mem_cons, not_or] at h
    rw [alookup_cons, if_neg ?_, ih h.2]
    simp only [beq_iff_eq]
    exact fun e => h.1 e.symm

/-- Replacing the value at `k` throughout changes the lookup at `k` to
the new value, exactly when a binding was present. -/
theorem alookup_map_replace_self (l : List (String × String)) (k v : String) :
    alookup (l.map (fun p => if p.1 == k then (p.1, v) else p)) k =
      (alookup l k).map (fun _ => v) := by
  induction l with
  | nil => rfl
  | cons p t ih =>
    simp only [List.map_cons, alookup_cons, beq_iff_eq] at ih ⊢
    by_cases h : p.1 = k
    · simp [h, ih]
    · simp [h, ih]

/-- Replacing the value at `k` throughout leaves lookups at other keys
unchanged. -/
theorem alookup_map_replace_other (l : List (String × String)) (k v k' : String)
    (h : k' ≠ k) :
    alookup (l.map (fun p => if p.1 == k then (p.1, v) else p)) k' = alookup l k' := by
  induction l with
  | nil => rfl
  | cons p t ih =>
    simp only [List.map_cons, alookup_cons, beq_iff_eq] at ih ⊢
    have hkk : ¬ k = k' := fun e => h e.symm
    by_cases hp : p.1 = k
    · have hpk : ¬ p.1 = k' := by rw [hp]; exact hkk
      simp [hp, hpk, hkk, ih]
    · by_cases hk2 : p.1 = k'
      · simp [hp, hk2, h, ih]
      · simp [hp, hk2, ih]

/-- Unfolding one reassignment step at its own account key. -/
theorem alookup_applyOne_self (acc : List (String × String)) (sub : String × String) :
    alookup (applyOneReassignment acc sub) sub.1 =
      (alookup acc sub.1).map (fun _ => sub.2) := by
  unfold applyOneReassignment
  split_ifs with hf
  · exact alookup_map_replace_self acc sub.1 sub.2
  · have : alookup acc sub.1 = none := by
      unfold alookup
      rcases hv : acc.find? (fun p => p.1 == sub.1) with _ | p
      · rw [hv]; rfl
      · rw [hv] at hf; simp at hf
    rw [this]; rfl

/-- A reassignment step does not touch other account keys. -/
theorem alookup_applyOne_other (acc : List (String × String)) (sub : String × String)
    (k : String) (h : k ≠ sub.1) :
    alookup (applyOneReassignment acc sub) k = alookup acc k := by
  unfold applyOneReassignment
  split_ifs with hf
  · exact alookup_map_replace_other acc sub.1 sub.2 k h
  · rfl

/-- The review step's applied agent for each account: no containment
check against the alternates exists in the application path. -/
theorem alookup_applyReassignments (assignments subs : List (String × String))
    (acct : String) (hS : (subs.map Prod.fst).Nodup) :
    alookup (applyReassignments assignments subs) acct =
      (alookup assignments acct).map (fun orig => (alookup subs acct).getD orig) := by
  induction subs generalizing assignments with
  | nil =>
      simp only [applyReassignments, List.foldl_nil, alookup, List.find?_nil,
        Option.getD_none]
      cases (assignments.find? (fun p => p.1 == acct)).map Prod.snd <;> rfl
  | cons s rest ih =>
      simp only [List.map_cons, List.nodup_cons] at hS
      obtain ⟨hs1, hs2⟩ := hS
      have hstep : applyReassignments assignments (s :: rest) =
          applyReassignments (applyOneReassignment assignments s) rest := rfl
      rw [hstep, ih _ hs2]
      by_cases hk : acct = s.1
      · subst hk
        rw [alookup_applyOne_self, alookup_eq_none rest s.1 hs1,
          alookup_cons, if_pos (by simp)]
        cases alookup assignments s.1 <;> rfl
      · rw [alookup_applyOne_other assignments s acct hk, alookup_cons,
          if_neg (by simp only [beq_iff_eq]; exact fun e => hk e.symm)]

/-- C1, amended: substitutions are applied with no containment check
against the disclosed alternates.  (a) In the review step, for each
account present in the proposal the applied agent is exactly the agent
its substitution names when one exists — disclosed alternate or not —
and the original agent otherwise, while substitutions for accounts
outside the proposal are ignored.  (b) In the controller, whenever the
substitution branch is taken and every substituted agent exists in the
book map, the attempt finalises exactly the reviewer's revised
assignments; a substituted agent absent from the book map instead
aborts the run (`KeyError` at line 2357) rather than being ignored. -/
theorem applied_agent_is_raw_substitution :
    (∀ (assignments subs : List (String × String)) (acct : String),
        (subs.map Prod.fst).Nodup →
        alookup (applyReassignments assignments subs) acct =
          (alookup assignments acct).map (fun orig => (alookup subs acct).getD orig)) ∧
      (∀ (env : RunEnv) (csmBooks : List (String × Book)) (rc : ℕ),
        (buildProposal env csmBooks).1 ≠ [] →
        env.claudeAvailable = true →
        (review_assignments_with_llm (buildProposal env csmBooks).1
            (env.responses rc)).shouldRerun = true →
        rc < maxRetries →
        (review_assignments_with_llm (buildProposal env csmBooks).1
            (env.responses rc)).revisedAssignments ≠ [] →
        (review_assignments_with_llm (buildProposal env csmBooks).1
            (env.responses rc)).revisedAssignments ≠ (buildProposal env csmBooks).1 →
        ((review_assignments_with_llm (buildProposal env csmBooks).1
              (env.responses rc)).revisedAssignments.all
            (fun pr =>
              (alookup (revertAssignmentsFromBooks (buildProposal env csmBooks).2
                  (buildProposal env csmBooks).1 env.accounts) pr.2).isSome)) = true →
        (runAttempt env csmBooks rc).finalAssignments =
          some (review_assignments_with_llm (buildProposal env csmBooks).1
            (env.responses rc)).revisedAssignments) := by
  refine ⟨alookup_applyReassignments, ?_⟩
  intro env csmBooks rc h1 h2 h3 h4 h5 h6 h7
  unfold runAttempt
  dsimp only
  rw [if_pos ⟨h1, h2⟩, if_pos ⟨h3, h4⟩, if_pos ⟨h5, h6⟩, if_pos h7]
  rfl

/-- Witness for C1's amended statement: the substitution `A1 → csm9`
over the proposal `A1 → csm1` is applied verbatim in the review step,
and a batch attempt whose reviewer substitutes the in-book agent `csm2`
finalises the revised assignments. -/
theorem applied_agent_is_raw_substitution_witness :
    alookup (applyReassignments [("A1", "csm1")] [("A1", "csm9")]) "A1" = some "csm9" ∧
      (runAttempt envSubstBatch exBooksPair 0).finalAssignments =
        some (review_assignments_with_llm (buildProposal envSubstBatch exBooksPair).1
          (envSubstBatch.responses 0)).revisedAssignments := by
  constructor
  · have h := applied_agent_is_raw_substitution.1 [("A1", "csm1")] [("A1", "csm9")] "A1"
      (by decide)
    rw [h]
    rfl
  · exact applied_agent_is_raw_substitution.2 envSubstBatch exBooksPair 0 (by decide)
      (by decide) (by decide) (by decide) (by decide) (by decide) (by decide)

/-- The retry loop makes at most `fuel` attempts. -/
theorem runLoop_attempts_le (env : RunEnv) (fuel : ℕ) :
    ∀ (csmBooks : List (String × Book)) (rc : ℕ), (runLoop env fuel csmBooks rc).attempts ≤ fuel := by
  induction fuel with
  | zero => intro csmBooks rc; exact Nat.le_refl 0
  | succ n ih =>
      intro csmBooks rc
      rw [runLoop]
      rcases hA : runAttempt env csmBooks rc with _ | b2 | _
      · exact Nat.succ_le_succ (Nat.zero_le n)
      · exact Nat.succ_le_succ (ih b2 (rc + 1))
      · exact Nat.succ_le_succ (Nat.zero_le n)

/-- On the attempt with `retryCount = maxRetries` the loop always breaks,
finalising exactly the proposal built on that attempt. -/
theorem runAttempt_last (env : RunEnv) (csmBooks : List (String × Book)) :
    (runAttempt env csmBooks maxRetries).isFinalize = true ∧
      (runAttempt env csmBooks maxRetries).finalAssignments =
        some (buildProposal env csmBooks).1 := by
  unfold runAttempt
  dsimp only
  have hlt : ¬ (maxRetries < maxRetries) := Nat.lt_irrefl _
  by_cases h1 : (buildProposal env csmBooks).1 ≠ [] ∧ env.claudeAvailable
  · rw [if_pos h1, if_neg (fun hc => hlt hc.2)]
    exact ⟨rfl, rfl⟩
  · rw [if_neg h1]
    exact ⟨rfl, rfl⟩

/-- C6: for every run over a single batch the controller makes at most
`maxRetries + 1` proposal-building attempts (`maxRetries = 2`), and on
the attempt with the retry budget exhausted it always finalises the
proposal built on that attempt, whatever the reviewer's verdict. -/
theorem retry_bound_and_force_finalize :
    (∀ (env : RunEnv) (csmBooks0 : List (String × Book)),
        (run env csmBooks0).attempts ≤ maxRetries + 1) ∧
      (∀ (env : RunEnv) (csmBooks : List (String × Book)),
        (runAttempt env csmBooks maxRetries).isFinalize = true ∧
          (runAttempt env csmBooks maxRetries).finalAssignments =
            some (buildProposal env csmBooks).1) :=
  ⟨fun env csmBooks0 => runLoop_attempts_le env (maxRetries + 1) csmBooks0 0, runAttempt_last⟩

/-- Removing an account's delta undoes adding it. -/
theorem removeAccount_addAccount (b : Book) (a : Account) :
    removeAccountFromBook (addAccountToBook b a) a = b := by
  cases b
  simp [addAccountToBook, removeAccountFromBook]

/-- Reverting an account's delta on the same agent restores the book map. -/
theorem applyRemove_applyAdd (csmBooks : List (String × Book)) (csm : String) (a : Account) :
    applyRemoveDelta (applyAddDelta csmBooks csm a) csm a = csmBooks := by
  unfold applyAddDelta applyRemoveDelta
  rw [List.map_map]
  conv_rhs => rw [← List.map_id csmBooks]
  refine List.map_congr_left ?_
  intro p _
  by_cases h : (p.1 == csm) = true
  · simp only [Function.comp_apply]
    rw [if_pos h]
    rw [if_pos h]
    rw [removeAccount_addAccount]
    rfl
  · simp only [Function.comp_apply]
    rw [if_neg h, if_neg h]
    rfl

/-- Reverting the single-account proposal's delta restores the book map. -/
theorem revert_single_assignment (csmBooks : List (String × Book)) (a : Account)
    (csm : String) (accounts : List Account)
    (hfind : accounts.find? (fun x => x.accountId == a.accountId) = some a) :
    revertAssignmentsFromBooks (applyAddDelta csmBooks csm a) [(a.accountId, csm)]
      accounts = csmBooks := by
  unfold revertAssignmentsFromBooks
  simp only [List.foldl_cons, List.foldl_nil, hfind]
  exact applyRemove_applyAdd csmBooks csm a

/-- C3, amended: when a rejected attempt retries, the book state passed
to the next `BUILD_PROPOSAL` equals the attempt's starting state on the
single-account path (the delta is reverted) and on the successful batch
solver path (no delta was applied); the greedy fallback path is the
exception — its deltas persist (refuted separately). -/
theorem retry_revert_by_path (env : RunEnv) (csmBooks : List (String × Book)) (rc : ℕ) :
    (env.accounts.length = 1 →
        ((runAttempt env csmBooks rc).retryBooks.getD csmBooks) = csmBooks) ∧
      (env.accounts.length ≠ 1 →
        env.solveBatch csmBooks (computeExclusions env csmBooks) ≠ [] →
        ((runAttempt env csmBooks rc).retryBooks.getD csmBooks) = csmBooks) := by
  constructor
  · intro hlen
    obtain ⟨a, ha⟩ := List.length_eq_one.mp hlen
    unfold runAttempt buildProposal
    rw [ha]
    dsimp only
    rcases hbest : (assign_single_account_optimized env.cfg env.eligibleCsmList a csmBooks
        env.recencyCache (computeExclusions env csmBooks)).best with _ | ⟨csm, sc⟩
    · dsimp only
      rw [if_neg (by simp)]
      rfl
    · dsimp only
      rw [if_pos (show [a].length = 1 ∧ [(a.accountId, csm)] ≠ [] from ⟨rfl, by simp⟩)]
      split_ifs with h1 h2 h3 h4
      · rfl
      · rfl
      · exact revert_single_assignment csmBooks a csm [a] (by simp)
      · rfl
      · rfl
  · intro hlen hbatch
    unfold runAttempt buildProposal
    rcases hacc : env.accounts with _ | ⟨a, _ | ⟨b, t⟩⟩
    · dsimp only
      rw [if_pos hbatch, if_neg (by simp :
          ¬ (([] : List Account).length = 1 ∧
            env.solveBatch csmBooks (computeExclusions env csmBooks) ≠ []))]
      split_ifs with h1 h2 h3 h4
      · rfl
      · rfl
      · rfl
      · rfl
      · rfl
    · exact absurd (by rw [hacc] at hlen; exact hlen rfl) id
    · dsimp only
      rw [if_pos hbatch, if_neg (show
          ¬ ((a :: b :: t).length = 1 ∧
            env.solveBatch csmBooks (computeExclusions env csmBooks) ≠ []) by
          rintro ⟨hl, -⟩
          simp only [List.length_cons] at hl
          omega)]
      split_ifs with h1 h2 h3 h4
      · rfl
      · rfl
      · rfl
      · rfl
      · rfl

set_option maxHeartbeats 4000000 in
/-- C1, counterexample: six eligible agents with identical books rank
`csm1,…,csm6`; the proposal is `A1 → csm1` and only `csm1`-`csm5` are
disclosed as alternates.  A verdict substituting `csm6` — an agent
present in the book map (so the book update at line 2357 raises no
`KeyError`) but outside the disclosed alternates — is applied and
finalised by the controller, and `csm6`'s book delta is committed: the
substitution is neither ignored nor is the original assignment
preserved. -/
theorem substitution_containment_counterexample :
    (run envSubst exBooksSix).assignments = [("A1", "csm6")] ∧
      (run envSubst exBooksSix).aborted = false ∧
      (assign_single_account_optimized cfgRC ["csm1", "csm2", "csm3", "csm4", "csm5", "csm6"]
          exAcct1 exBooksSix [] []).best.map Prod.fst = some "csm1" ∧
      ((assign_single_account_optimized cfgRC ["csm1", "csm2", "csm3", "csm4", "csm5",
            "csm6"] exAcct1 exBooksSix [] []).topAlternatives.take 5).map Prod.fst =
        ["csm1", "csm2", "csm3", "csm4", "csm5"] ∧
      "csm6" ∉ ((assign_single_account_optimized cfgRC ["csm1", "csm2", "csm3", "csm4",
          "csm5", "csm6"] exAcct1 exBooksSix [] []).topAlternatives.take 5).map Prod.fst ∧
      (alookup exBooksSix "csm6").isSome = true ∧
      (alookup (run envSubst exBooksSix).csmBooks "csm6").map Book.count = some 21 := by
  refine ⟨?_, ?_, ?_, ?_, ?_, ?_, ?_⟩ <;>
    norm_num +decide [run, runLoop, maxRetries, runAttempt, buildProposal, computeExclusions,
      get_recently_assigned_csms, exclusionWindow, exclusionMaxAllowed,
      applyExclusionSafetyValve, eligibleCount, assign_single_account_optimized, scoreCsm,
      alookup, applyAddDelta, addAccountToBook, calculate_book_imbalance, popVariance,
      capacityPressure, limitsGet, lookupRecency, zeroRecency,
      calculate_assignment_recency_penalty, insertByScore, sortByScore, bestOf,
      review_assignments_with_llm, reviewCore, applyReassignments, applyOneReassignment,
      greedyFallback, revertAssignmentsFromBooks, applyRemoveDelta, removeAccountFromBook,
      applyAssignmentsToBooks, envSubst, cfgRC, exAcct1, exBooksSix, exBookA]

set_option maxHeartbeats 2000000 in
/-- C2: evaluation of the failing input.  With a single eligible agent
already holding 105 accounts (the residential-corporate ceiling), the
single-item path still assigns the account (the hard capacity check of
lines 1189-1193 is commented out), committing a post-commit count of
106 > 105 instead of reporting the account unassignable. -/
theorem capacity_exceeded_on_single_path :
    (run envAtCap exBooksAtCap).assignments = [("A2", "csm1")] ∧
      (alookup (run envAtCap exBooksAtCap).csmBooks "csm1").map Book.count = some 106 ∧
      limitsGet cfgRC "residential_corporate" 105 = 105 ∧ ¬ ((106 : ℤ) ≤ 105) := by
  refine ⟨?_, ?_, ?_, ?_⟩ <;>
    norm_num +decide [run, runLoop, maxRetries, runAttempt, buildProposal, computeExclusions,
      get_recently_assigned_csms, exclusionWindow, exclusionMaxAllowed,
      applyExclusionSafetyValve, eligibleCount, assign_single_account_optimized, scoreCsm,
      alookup, applyAddDelta, addAccountToBook, calculate_book_imbalance, popVariance,
      capacityPressure, limitsGet, lookupRecency, zeroRecency,
      calculate_assignment_recency_penalty, insertByScore, sortByScore, bestOf,
      review_assignments_with_llm, reviewCore, applyReassignments, applyOneReassignment,
      greedyFallback, revertAssignmentsFromBooks, applyRemoveDelta, removeAccountFromBook,
      applyAssignmentsToBooks, envAtCap, cfgRC, exAcctCap, exBooksAtCap, exBookFull]

set_option maxHeartbeats 2000000 in
/-- C3, counterexample: a two-account batch whose solver fails goes
through the greedy fallback, which applies book deltas; when the
reviewer then rejects with no substitutions, the attempt retries with
the mutated books — the deltas are not reverted, so the rebuild does not
start from the first attempt's book state. -/
theorem fallback_retry_books_counterexample :
    (runAttempt envFallback exBooksPair 0).retryBooks.isSome = true ∧
      (runAttempt envFallback exBooksPair 0).retryBooks ≠ some exBooksPair := by
  refine ⟨?_, ?_⟩ <;>
    norm_num +decide [maxRetries, runAttempt, buildProposal, computeExclusions,
      get_recently_assigned_csms, exclusionWindow, exclusionMaxAllowed,
      applyExclusionSafetyValve, eligibleCount, assign_single_account_optimized, scoreCsm,
      alookup, applyAddDelta, addAccountToBook, calculate_book_imbalance, popVariance,
      capacityPressure, limitsGet, lookupRecency, zeroRecency,
      calculate_assignment_recency_penalty, insertByScore, sortByScore, bestOf,
      review_assignments_with_llm, reviewCore, applyReassignments, applyOneReassignment,
      greedyFallback, revertAssignmentsFromBooks, applyRemoveDelta, removeAccountFromBook,
      applyAssignmentsToBooks, AttemptOutcome.retryBooks, envFallback, cfgRC, exAcct1,
      exAcct2, exBooksPair, exBookA, exBookB]

/-- Witness for C3's amended statement: a rejected single-account attempt
and a rejected solver-path batch attempt both retry with the starting
book state. -/
theorem retry_revert_by_path_witness :
    ((runAttempt envSingleReject exBooksPair 0).retryBooks.getD exBooksPair) = exBooksPair ∧
      ((runAttempt envBatchOk exBooksPair 0).retryBooks.getD exBooksPair) = exBooksPair :=
  ⟨(retry_revert_by_path envSingleReject exBooksPair 0).1 rfl,
    (retry_revert_by_path envBatchOk exBooksPair 0).2 (by decide) (by decide)⟩

set_option maxHeartbeats 2000000 in
/-- C10: evaluation at the failing input.  A reviewer exception makes
the review step report "no rerun" and the controller finalises on the
first attempt; but an unparseable response — despite the fallback
verdict's `approve=True` and its "proceeding with assignments" feedback —
reports a rerun (its `confidence_score=0` trips the `< 60` check), so
the controller discards the proposal, consumes every retry, and only
force-finalises on the third attempt. -/
theorem review_fallback_behavior :
    (review_assignments_with_llm [("A1", "csm1")] .unparseable).shouldRerun = true ∧
      (review_assignments_with_llm [("A1", "csm1")] .failure).shouldRerun = false ∧
      (run envUnparseable exBooksPair).attempts = 3 ∧
      (run envUnparseable exBooksPair).forced = true ∧
      (run envReviewError exBooksPair).attempts = 1 := by
  refine ⟨by decide, by decide, ?_, ?_, ?_⟩ <;>
    norm_num +decide [run, runLoop, maxRetries, runAttempt, buildProposal, computeExclusions,
      get_recently_assigned_csms, exclusionWindow, exclusionMaxAllowed,
      applyExclusionSafetyValve, eligibleCount, assign_single_account_optimized, scoreCsm,
      alookup, applyAddDelta, addAccountToBook, calculate_book_imbalance, popVariance,
      capacityPressure, limitsGet, lookupRecency, zeroRecency,
      calculate_assignment_recency_penalty, insertByScore, sortByScore, bestOf,
      review_assignments_with_llm, reviewCore, applyReassignments, applyOneReassignment,
      greedyFallback, revertAssignmentsFromBooks, applyRemoveDelta, removeAccountFromBook,
      applyAssignmentsToBooks, envUnparseable, envReviewError, cfgRC, exAcct1, exBooksPair,
      exBookA, exBookB]

end CSMRouting
